import Mathlib
/-!
Verification development for the `vite-plugin-image-gen` repository.

The definitions below are a shallow embedding of the plugin's source code
(`src/api.ts`, which bundles the API module and the presets module, and
`src/index.ts`).  JavaScript numbers are modelled as rationals (every value
exercised here is a small dyadic rational, on which JavaScript float
arithmetic is exact), JavaScript objects as association lists of key/value
pairs in insertion order, and the SHA-256 digest from `node:crypto` as an
abstract function parameter `hash : String → String` (the code treats it as
an opaque collision-resistant collaborator).
-/
/-- Rendering of a JavaScript number by template-literal interpolation.
Every density and width appearing in this development is an integer, which
JavaScript prints without a decimal point; non-integral rationals are shown
with Lean's `Rat` notation and never occur in the statements below. -/
def jsNumToString (q : ℚ) : String :=
  if q.den = 1 then toString q.num else toString q
/-- Ascending numeric sort, the behaviour of JavaScript
`array.sort((a, b) => a - b)` (a stable comparison sort). -/
def sortAsc (l : List ℚ) : List ℚ :=
  List.insertionSort (fun a b => a ≤ b) l
/-- Truthiness of an optional JavaScript number: `undefined` and `0` are
falsy, every other number is truthy. -/
def truthyQ (o : Option ℚ) : Bool :=
  match o with
  | none => false
  | some v => v ≠ 0
/-- Embedding of the helper `x` from the presets module:
`x(quantity, n)` returns `Math.floor(quantity * n)` when `n` is truthy and
`undefined` otherwise. -/
def x (quantity : ℚ) (n : Option ℚ) : Option ℤ :=
  match n with
  | none => none
  | some m => if m ≠ 0 then some ⌊quantity * m⌋ else none
/-- Embedding of `mimeTypeFor` from the presets module. -/
def mimeTypeFor (format : String) : Option String :=
  if format = "original" then none
  else if format = "jpg" then some "jpeg"
  else some ("image/" ++ format)
mutual
/-- JavaScript runtime values, as far as the plugin's argument objects are
concerned.  Objects keep their entries in insertion order; `fn` stands for
any function value (only its `typeof` matters to the code modelled here). -/
inductive JSVal : Type where
  | undefined : JSVal
  | null : JSVal
  | bool (b : Bool) : JSVal
  | num (q : ℚ) : JSVal
  | str (s : String) : JSVal
  | fn : JSVal
  | arr (elems : JSList) : JSVal
  | obj (entries : JSEntries) : JSVal
/-- Array element lists for `JSVal`. -/
inductive JSList : Type where
  | nil : JSList
  | cons (hd : JSVal) (tl : JSList) : JSList
/-- Object entry lists `(key, value)` for `JSVal`, in insertion order. -/
inductive JSEntries : Type where
  | nil : JSEntries
  | cons (key : String) (val : JSVal) (tl : JSEntries) : JSEntries

end
deriving instance DecidableEq for JSVal, JSList, JSEntries
/-- Check for `undefined`. -/
def isUndefined : JSVal → Bool
  | .undefined => true
  | _ => false
/-- Check for `undefined` or `null`, the values deleted by `cleanObject`. -/
def isNullish : JSVal → Bool
  | .undefined => true
  | .null => true
  | _ => false
/-- Embedding of `isObject` from the presets module: plain objects only
(`typeof value === 'object'`, not an array, not `null`). -/
def isObjectJS : JSVal → Bool
  | .obj _ => true
  | _ => false
mutual
/-- Embedding of `cleanObject` from the presets module: delete every key
whose value is `undefined` or `null`, recursing into plain-object values
(arrays and other values are left untouched). -/
def cleanValue : JSVal → JSVal
  | .obj es => .obj (cleanEntries es)
  | v => v
/-- Entry-list worker for `cleanValue`. -/
def cleanEntries : JSEntries → JSEntries
  | .nil => .nil
  | .cons k v tl =>
      if isNullish v then cleanEntries tl
      else .cons k (cleanValue v) (cleanEntries tl)

end
mutual
/-- Removal of every object key bound to `undefined`, recursively through
nested objects.  Two argument objects that differ only in optional fields
being omitted versus present-but-undefined are exactly the objects with the
same `stripUndefined` image. -/
def stripUndefined : JSVal → JSVal
  | .obj es => .obj (stripEntries es)
  | v => v
/-- Entry-list worker for `stripUndefined`. -/
def stripEntries : JSEntries → JSEntries
  | .nil => .nil
  | .cons k v tl =>
      if isUndefined v then stripEntries tl
      else .cons k (stripUndefined v) (stripEntries tl)

end
/-- Values that `JSON.stringify` omits when they appear as object property
values (and replaces by `null` as array elements): `undefined` and
functions. -/
def isJsonOmitted : JSVal → Bool
  | .undefined => true
  | .fn => true
  | _ => false
/-- Minimal JSON string quoting: quotes and backslashes are escaped.  The
keys and string values of the plugin's argument objects contain neither. -/
def jsonQuote (s : String) : String :=
  "\"" ++ String.join (s.data.map (fun c =>
    if c = '"' then "\\\"" else if c = '\\' then "\\\\" else String.singleton c)) ++ "\""
mutual
/-- Embedding of `JSON.stringify` on the values above.  Top-level
`undefined` and function values produce no string in JavaScript; the
argument objects serialized by the plugin are always plain objects, so that
case is unreachable and mapped to the placeholder `"undefined"`. -/
def serialize : JSVal → String
  | .undefined => "undefined"
  | .null => "null"
  | .bool b => cond b "true" "false"
  | .num q => jsNumToString q
  | .str s => jsonQuote s
  | .fn => "undefined"
  | .arr es => "[" ++ String.intercalate "," (serializeElems es) ++ "]"
  | .obj es => "\x7b" ++ String.intercalate "," (serializeProps es) ++ "\x7d"
/-- Array elements: `undefined` and functions serialize as `null`. -/
def serializeElems : JSList → List String
  | .nil => []
  | .cons v tl =>
      (if isJsonOmitted v then "null" else serialize v) :: serializeElems tl
/-- Object properties: keys with `undefined` or function values are
omitted. -/
def serializeProps : JSEntries → List String
  | .nil => []
  | .cons k v tl =>
      if isJsonOmitted v then serializeProps tl
      else (jsonQuote k ++ ":" ++ serialize v) :: serializeProps tl

end
mutual
/-- Conversion of a JavaScript value to a string, as performed by template
literals (`String(value)`).  A plain object becomes the literal
`"[object Object]"`; an array joins its elements with commas; a function
stringifies to its source text, abbreviated here to a placeholder (no
function value ever reaches a template literal in the code modelled). -/
def jsToString : JSVal → String
  | .undefined => "undefined"
  | .null => "null"
  | .bool b => cond b "true" "false"
  | .num q => jsNumToString q
  | .str s => s
  | .fn => "function"
  | .arr es => String.intercalate "," (jsToStringElems es)
  | .obj _ => "[object Object]"
/-- Elements joined by `Array.prototype.join`: `undefined` and `null`
become the empty string. -/
def jsToStringElems : JSList → List String
  | .nil => []
  | .cons v tl =>
      (match v with
        | .undefined => ""
        | .null => ""
        | w => jsToString w) :: jsToStringElems tl

end
/-- Lookup of a key in an object's entry list. -/
def jsGetEntries : JSEntries → String → JSVal
  | .nil, _ => .undefined
  | .cons k v tl, key => if k = key then v else jsGetEntries tl key
/-- Property access `value[key]`: `none` models the `TypeError` thrown when
the receiver is `null` or `undefined`; reading an absent key of any other
value yields `undefined`. -/
def jsGet (v : JSVal) (key : String) : Option JSVal :=
  match v with
  | .undefined => none
  | .null => none
  | .obj es => some (jsGetEntries es key)
  | _ => some .undefined
/-- Embedding of `generateImageID` from the API module.  The digest chain
`createHash('sha256').update(url).update(JSON.stringify(args))` is the
abstract `hash` applied to the concatenation; `.slice(0, 8)` is `take 8`.
The extension branch interpolates `args.format` itself (a
`{type, options}` object) into the template literal, so the embedding
stringifies the whole `format` value.  `none` models the `TypeError` raised
when `args.format` is `null`/`undefined`. -/
def generateImageID (hash : String → String) (url : String) (args : JSVal) : Option String :=
  match jsGet args "format" with
  | none => none
  | some fmt =>
    match jsGet fmt "type" with
    | none => none
    | some t =>
      let isOriginal : Bool := match t with
        | .str s => s = "original"
        | _ => false
      let extension := if isOriginal then "" else "." ++ jsToString fmt
      some (((hash (url ++ serialize args)).take 8) ++ extension)
/-- Resize parameters handed to the image collaborator.  `extra` stands for
the spread of the preset's `resizeOptions` (fit, position, …), which the
presets module passes through opaquely and which carries no width/height of
its own in this development. -/
structure ResizeArgs : Type where
  width : Option ℤ
  height : Option ℤ
  withoutEnlargement : Option Bool
  extra : Option JSVal
deriving DecidableEq
/-- Operations queued on an image handle, recorded in application order. -/
inductive ImgOp : Type where
  | toFormat (type : String) (options : Option JSVal)
  | resize (r : ResizeArgs)
deriving DecidableEq
/-- Image handle of the external image collaborator (`sharp`).  `width` and
`height` are the intrinsic metadata of the loaded source (the collaborator's
`metadata()` reads the input file, not the queued operations); `ops` is the
queue of transformations. -/
structure Img : Type where
  width : Option ℚ
  height : Option ℚ
  ops : List ImgOp := []
deriving DecidableEq
/-- Queue a format conversion on an image handle. -/
def Img.toFormat (img : Img) (type : String) (options : Option JSVal) : Img :=
  { img with ops := img.ops ++ [ImgOp.toFormat type options] }
/-- Queue a resize on an image handle. -/
def Img.resize (img : Img) (r : ResizeArgs) : Img :=
  { img with ops := img.ops ++ [ImgOp.resize r] }
/-- Target format of a preset: the literal `'original'`, or an object with
exactly one key (the format name) mapped to that format's encode options. -/
inductive FormatProp : Type where
  | original
  | single (key : String) (value : JSVal)
/-- Embedding of `Object.keys(format)[0]` with the `'original'` case folded
in, as both preset constructors compute it. -/
def formatKeyOf : FormatProp → String
  | .original => "original"
  | .single k _ => k
/-- Embedding of `format[formatKey]` (`undefined` in the `'original'`
case). -/
def formatValueOf : FormatProp → Option JSVal
  | .original => none
  | .single _ v => some v
/-- Arguments stored in a density-preset variant spec, as destructured by
its `generate` function: the (already normalized) density and the
`{type, options}` format object.  `cleanObject` only deletes
`undefined`/`null`-valued keys, which the `Option` fields represent. -/
structure DensityArgs : Type where
  density : ℚ
  formatType : String
  formatOptions : Option JSVal
/-- One variant spec `(condition, args, generate)` produced by a preset. -/
structure PresetSpec (α : Type) : Type where
  args : α
  condition : String
  generate : Img → α → Img
/-- Image section of a resolved preset. -/
structure PresetImage (α : Type) : Type where
  type : Option String
  specs : List (PresetSpec α)
/-- Embedding of `PresetConfig` from the presets module.
`isBackgroundImage` is left `undefined` by `widthPreset`; its JavaScript
truthiness is modelled by a plain `Bool`. -/
structure PresetConfig (α : Type) : Type where
  inferDimensions : Bool
  isBackgroundImage : Bool
  image : PresetImage α
/-- Properties accepted by `densityPreset`.  The optional `withImage` hook
may return a replacement image or `undefined`/`null` (modelled by
`Option`). -/
structure DensityProps : Type where
  baseHeight : Option ℚ := none
  baseWidth : Option ℚ := none
  density : List ℚ
  format : FormatProp
  inferDimensions : Bool := false
  isBackgroundImage : Bool := false
  resizeOptions : Option JSVal := none
  withImage : Option (Img → DensityArgs → Option Img) := none
/-- Embedding of `densityPreset` from the presets module.  The density list
is sorted ascending; `highestDensity` is the sorted list's
`reduce((a, v) => (v >= a ? v : a), 1)`, i.e. the maximum of the requested
densities and `1`.  Each spec's stored `args.density` is
`density / highestDensity`, and the spec's `generate` divides the density
it receives by `highestDensity` once more before scaling the base
dimensions. -/
def densityPreset (props : DensityProps) : PresetConfig DensityArgs :=
  let formatKey := formatKeyOf props.format
  let formatValue := formatValueOf props.format
  let sorted := sortAsc props.density
  let highestDensity := sorted.foldl (fun a v => if v ≥ a then v else a) 1
  { inferDimensions := props.inferDimensions
    isBackgroundImage := props.isBackgroundImage
    image :=
    { type := mimeTypeFor formatKey
      specs := sorted.map (fun density =>
        { condition := jsNumToString density ++ "x"
          args :=
          { density := density / highestDensity
            formatType := formatKey
            formatOptions := formatValue }
          generate := fun img args =>
            let img := if args.formatType ≠ "original"
              then img.toFormat args.formatType args.formatOptions else img
            let img :=
              if args.density ≠ 0 then
                if truthyQ props.baseHeight ∨ truthyQ props.baseWidth then
                  img.resize
                  { width := x (args.density / highestDensity) props.baseWidth
                    height := x (args.density / highestDensity) props.baseHeight
                    withoutEnlargement := some true
                    extra := props.resizeOptions }
                else
                  img.resize
                  { width := x args.density img.width
                    height := none
                    withoutEnlargement := none
                    extra := none }
              else img
            match props.withImage with
            | some hook => (hook img args).getD img
            | none => img }) } }
/-- Width entry of a width preset: the sentinel `'original'` or a numeric
pixel width. -/
inductive WidthVal : Type where
  | original
  | val (q : ℚ)
/-- Width list of a width preset: the sentinel `'original'` or a list of
pixel widths. -/
inductive WidthsProp : Type where
  | original
  | list (ws : List ℚ)
/-- Arguments stored in a width-preset variant spec. -/
structure WidthArgs : Type where
  width : WidthVal
  density : Option ℚ
  formatType : String
  formatOptions : Option JSVal
  resizeOptions : Option JSVal
/-- Properties accepted by `widthPreset`. -/
structure WidthProps : Type where
  format : FormatProp
  inferDimensions : Bool := false
  resizeOptions : Option JSVal := none
  withImage : Option (Img → WidthArgs → Option Img) := none
  widths : WidthsProp
  density : Option ℚ := none
/-- Embedding of `widthPreset` from the presets module.  A literal
`'original'` yields the single-sentinel list; numeric widths are sorted
ascending (the comparator returns `0` on strings, which only arise in the
singleton sentinel list).  The uniform scalar `density` defaults to `1`
for numeric widths and is `undefined` for the sentinel.  `widthPreset`
never sets `isBackgroundImage`, so it is falsy. -/
def widthPreset (props : WidthProps) : PresetConfig WidthArgs :=
  let formatKey := formatKeyOf props.format
  let formatValue := formatValueOf props.format
  let density : Option ℚ := match props.widths with
    | .original => none
    | .list _ => some (props.density.getD 1)
  let sortedWidths : List WidthVal := match props.widths with
    | .original => [WidthVal.original]
    | .list ws => (sortAsc ws).map WidthVal.val
  { inferDimensions := props.inferDimensions
    isBackgroundImage := false
    image :=
    { type := mimeTypeFor formatKey
      specs := sortedWidths.map (fun width =>
        { condition := match width with
            | .original => ""
            | .val q => jsNumToString q ++ "w"
          args :=
          { width := width
            density := density
            formatType := formatKey
            formatOptions := formatValue
            resizeOptions := props.resizeOptions }
          generate := fun img args =>
            let img := if formatKey ≠ "original"
              then img.toFormat formatKey formatValue else img
            let img := match width with
              | .val q =>
                  img.resize
                  { width := x q density
                    height := none
                    withoutEnlargement := some true
                    extra := props.resizeOptions }
              | .original => img
            match props.withImage with
            | some hook => (hook img args).getD img
            | none => img }) } }
/-- Descriptor returned by `generateImage`: a background-image descriptor
(`src` wrapped in `url(...)`, plus an `imageSet`) or an `img` descriptor
(`src`, `srcset`, and optional inferred dimensions). -/
inductive PresetAttr : Type where
  | bg (src : String) (imageSet : String)
  | img (src : String) (srcset : String) (width : Option ℤ) (height : Option ℤ)
deriving DecidableEq
/-- Canonical `src` of a descriptor. -/
def attrSrc : PresetAttr → String
  | .bg src _ => src
  | .img src _ _ _ => src
/-- Assembled source list of a descriptor: the `imageSet` of a background
descriptor or the `srcset` of an image descriptor. -/
def attrSrcList : PresetAttr → String
  | .bg _ imageSet => imageSet
  | .img _ srcset _ _ => srcset
/-- Embedding of `s.filter(Boolean).join(' ')` on a `(url, condition)`
pair: empty strings are dropped, the rest joined by a space. -/
def joinPair (url condition : String) : String :=
  String.intercalate " " (List.filter (fun t => t ≠ "") [url, condition])
/-- Single-quote character, written via its code point. -/
def squote : String := String.singleton (Char.ofNat 39)
/-- Error message used by `generateImage` when the canonical source entry
is empty or missing. -/
def missingImageMsg (filename : String) : String :=
  "vite-plugin-image-gen: The image " ++ filename ++ " doesn" ++ squote ++ "t seem to exist"
/-- Embedding of the body of `generateImage` from the API module, from the
point where the preset has been resolved.  `urlFor` stands for
`encodeURI(await getImageSrc(filename, spec.args, spec.generate))`, i.e.
the encoded public or virtual URL of one variant; `measure` stands for
rendering the last spec once more and reading the pixel dimensions of the
produced buffer (the `inferDimensions` branch).  The descriptor's `src` is
`sourceSet[sourceSet.length - 1]`; a missing entry (empty spec list) or an
empty URL raises the does-not-exist error. -/
def generateImage {α : Type} (preset : PresetConfig α) (filename : String)
    (urlFor : PresetSpec α → String) (measure : PresetSpec α → ℤ × ℤ) :
    Except String PresetAttr :=
  let sourceSet := preset.image.specs.map (fun s => (urlFor s, s.condition))
  match sourceSet.getLast? with
  | none => .error (missingImageMsg filename)
  | some source =>
    if source.1 = "" then .error (missingImageMsg filename)
    else if preset.isBackgroundImage then
      .ok (.bg ("url(" ++ source.1 ++ ")")
        (String.intercalate ", "
          (sourceSet.map (fun s => "url(" ++ joinPair s.1 s.2 ++ ")"))))
    else if preset.inferDimensions then
      match preset.image.specs.getLast? with
      | none => .error "No image source"
      | some lastSrc =>
        let wh := measure lastSrc
        .ok (.img source.1
          (String.intercalate ", " (sourceSet.map (fun s => joinPair s.1 s.2)))
          (some wh.1) (some wh.2))
    else
      .ok (.img source.1
        (String.intercalate ", " (sourceSet.map (fun s => joinPair s.1 s.2)))
        none none)
/-- Fixed allowed format list of `formatFor` in the API module. -/
def allowedFormats : List String :=
  ["avif", "gif", "heif", "jpeg", "jpg", "png", "tif", "tiff", "webp"]
/-- Embedding of `formatFor` from the API module, as a function of the
`format` field reported by the image collaborator's `metadata()` (`none`
models an absent field).  An absent, empty or disallowed format throws;
`heif` is aliased to `avif`; every other allowed format is returned
unchanged. -/
def formatFor (metadataFormat : Option String) : Except String String :=
  match metadataFormat with
  | none => .error "Could not infer image format"
  | some format =>
    if format = "" ∨ ¬ (allowedFormats.contains format) then
      .error "Could not infer image format"
    else if format = "heif" then .ok "avif"
    else .ok format
/-- First-match lookup in an association list, the behaviour of
`record[id]` on the plugin's plain-object caches. -/
def lookupId {β : Type} (id : String) : List (String × β) → Option β
  | [] => none
  | (k, v) :: tl => if k = id then some v else lookupId id tl
/-- Embedding of `getImage` from the API module: a missing or empty `id`
throws `No id provided`; an id absent from `requestedImagesById` throws
`not found in cache`; otherwise the cached task is awaited and returned. -/
def getImage {β : Type} (requestedImagesById : List (String × β))
    (id : Option String) : Except String β :=
  match id with
  | none => .error "No id provided"
  | some s =>
    if s = "" then .error "No id provided"
    else
      match lookupId s requestedImagesById with
      | none => .error (s ++ " not found in cache")
      | some t => .ok t
/-- Embedding of the `OutputAsset` record built by `writeImageFile`
(bytes as a list of naturals). -/
structure OutputAsset : Type where
  fileName : String
  name : String
  needsCodeReference : Bool
  source : List ℕ
  type : String
deriving DecidableEq
/-- Embedding of `join(dir, file)` from `node:path` on the plugin's
already-normalized directory names. -/
def joinPath (dir file : String) : String := dir ++ "/" ++ file
/-- Embedding of `purgeCache` from the API module, returning the list of
deleted filenames.  When `config.purgeCache` is disabled nothing is
deleted; otherwise the cache-directory listing is filtered against the set
of emitted asset names and every remaining file is removed. -/
def purgeCache (configPurgeCache : Bool) (assets : List OutputAsset)
    (cachedFiles : List String) : List String :=
  if ¬ configPurgeCache then []
  else
    let usedFiles := assets.map (fun a => a.name)
    cachedFiles.filter (fun f => ¬ usedFiles.contains f)
/-- On-disk state of the durable cache directory: a map from path to file
bytes. -/
structure FSState : Type where
  files : List (String × List ℕ)
deriving DecidableEq
/-- Embedding of `exists` from the API module (an `access` probe). -/
def existsFile (fs : FSState) (path : String) : Bool :=
  (lookupId path fs.files).isSome
/-- Embedding of `writeImageFile` from the API module.  `imageBytes` is
what `image.toFile(cachedFilename)` (the producer) would write.  If the
cache file already exists the producer is skipped; otherwise the bytes are
written first.  The asset's `source` is then read back from the cache
path.  The returned flag records whether the producer was invoked. -/
def writeImageFile (fs : FSState) (cacheDir assetsDir filename : String)
    (imageBytes : List ℕ) : FSState × OutputAsset × Bool :=
  let cachedFilename := joinPath cacheDir filename
  let step :=
    if existsFile fs cachedFilename then (fs, false)
    else (FSState.mk ((cachedFilename, imageBytes) :: fs.files), true)
  let source := (lookupId cachedFilename step.1.files).getD []
  (step.1,
   { fileName := joinPath assetsDir filename
     name := filename
     needsCodeReference := true
     source := source
     type := "asset" },
   step.2)
/-- Settled result of a generation task: the generator's promise either
resolves with an image or rejects with an error. -/
inductive Outcome : Type where
  | resolved (image : Img)
  | failed (err : String)
deriving DecidableEq
/-- In-flight-or-completed generation task: a fresh task index (standing
for the promise's object identity) together with the outcome the task
settles to. -/
abbrev TaskRef : Type := ℕ × Outcome
/-- One call to `getImageSrc`: a source path (to be resolved against the
project root) and the variant arguments. -/
structure Call : Type where
  filename : String
  args : JSVal
/-- Per-session state owned by `apiFactory`: the single-flight request
cache `requestedImagesById`, a counter supplying fresh task identities,
and the log of identities for which the generator has been invoked, in
invocation order. -/
structure SFState : Type where
  requestedImagesById : List (String × TaskRef)
  nextTask : ℕ
  invocations : List String
/-- Fresh session state created by `apiFactory`. -/
def initialSFState : SFState :=
  { requestedImagesById := [], nextTask := 0, invocations := [] }
/-- Embedding of the single-flight core of `getImageSrc` from the API
module: resolve the filename, compute the variant identity, and evaluate
`requestedImagesById[id] ||= fn(loadImage(filename), args)` — the
generator `fn` runs only when the identity has no cached task, and the
cached task is returned otherwise.  `oracle` supplies the outcome of the
`k`-th generator invocation of the session (the generator is not assumed
deterministic); `resolvePath` is `resolve(config.root, ·)`; a `none`
result models the `TypeError` thrown by `generateImageID` on arguments
without a `format` field. -/
def getImageSrc (hash : String → String) (resolvePath : String → String)
    (oracle : ℕ → Outcome) (s : SFState) (c : Call) : SFState × Option TaskRef :=
  match generateImageID hash (resolvePath c.filename) c.args with
  | none => (s, none)
  | some id =>
    match lookupId id s.requestedImagesById with
    | some t => (s, some t)
    | none =>
      let t : TaskRef := (s.nextTask, oracle s.nextTask)
      ({ requestedImagesById := (id, t) :: s.requestedImagesById
         nextTask := s.nextTask + 1
         invocations := s.invocations ++ [id] },
       some t)
/-- Run of a session: a sequence of `getImageSrc` calls threaded through
the session state, returning the final state and each call's task. -/
def runCalls (hash : String → String) (resolvePath : String → String)
    (oracle : ℕ → Outcome) : SFState → List Call → SFState × List (Option TaskRef)
  | s, [] => (s, [])
  | s, c :: cs =>
    let step := getImageSrc hash resolvePath oracle s c
    let rest := runCalls hash resolvePath oracle step.1 cs
    (rest.1, step.2 :: rest.2)
/-- Application of a variant spec as the pipeline does it: `getImageSrc`
invokes `spec.generate` on the loaded image with the spec's own stored
`args`. -/
def runSelf {α : Type} (s : PresetSpec α) (img : Img) : Img :=
  s.generate img s.args
/-- Widths requested by the resize operations queued on an image, in
order. -/
def resizeWidths (img : Img) : List (Option ℤ) :=
  img.ops.filterMap (fun op =>
    match op with
    | .resize r => some r.width
    | _ => none)

/-- Argument object with `resizeOptions` present but `undefined`. -/
def argsWithUndefined : JSVal :=
  .obj (.cons "preset" (.str "density")
    (.cons "density" (.num 1)
      (.cons "resizeOptions" .undefined
        (.cons "format" (.obj (.cons "type" (.str "webp")
          (.cons "options" .undefined .nil))) .nil))))
/-- Same argument object with the `undefined` fields omitted. -/
def argsWithout : JSVal :=
  .obj (.cons "preset" (.str "density")
    (.cons "density" (.num 1)
      (.cons "format" (.obj (.cons "type" (.str "webp") .nil)) .nil)))
/-- Variant arguments targeting `webp`, for exhibiting the identity suffix
actually produced by `generateImageID`. -/
def webpArgs : JSVal :=
  .obj (.cons "preset" (.str "density")
    (.cons "density" (.num 1)
      (.cons "format" (.obj (.cons "type" (.str "webp") .nil)) .nil)))
/-- Density preset with base width 100 and densities `[1, 2]`, the
failing input for C3. -/
def c3Props : DensityProps :=
  { density := [1, 2], baseWidth := some 100, format := FormatProp.original }
/-- Same densities without base dimensions. -/
def c3PropsNoBase : DensityProps :=
  { density := [1, 2], format := FormatProp.original }
/-- Source image of intrinsic width 1000 used for C3. -/
def c3Img : Img := { width := some 1000, height := some 800 }
/-- Asset named `A` for the C5 purge example. -/
def assetA : OutputAsset :=
  { fileName := "assets/A", name := "A", needsCodeReference := true,
    source := [], type := "asset" }
/-- Asset named `C` for the C5 purge example. -/
def assetC : OutputAsset :=
  { fileName := "assets/C", name := "C", needsCodeReference := true,
    source := [], type := "asset" }
/-- Density list `[1, 3, 2]` for the C6 witness. -/
def w6props : DensityProps :=
  { density := [1, 3, 2], format := FormatProp.original }
/-- URL resolver tagging each spec by its condition. -/
def w6url (s : PresetSpec DensityArgs) : String := "u-" ++ s.condition
/-- Session invariant tying the invocation log to the single-flight
cache: the log has no duplicate identity, and an identity has been
invoked exactly when it has a cached task. -/
def SessionInv (s : SFState) : Prop :=
  s.invocations.Nodup ∧
  ∀ id, id ∈ s.invocations ↔ (lookupId id s.requestedImagesById).isSome
/-- Arguments (format `original`, hence no suffix) for the C1 witness. -/
def w1args : JSVal :=
  .obj (.cons "preset" (.str "density")
    (.cons "density" (.num 1)
      (.cons "format" (.obj (.cons "type" (.str "original") .nil)) .nil)))
/-- Call used twice in the C1 witness. -/
def w1call : Call := { filename := "img.png", args := w1args }
/-- Density preset with an empty density list, refuting C8. -/
def c8props : DensityProps := { density := [], format := FormatProp.original }
/-- Width preset with an empty width list for the C8 witness. -/
def w8props : WidthProps := { format := FormatProp.original, widths := WidthsProp.list [] }

mutual

/-- Cleaning after undefined-stripping equals cleaning alone:
`stripUndefined` removes a subset of what `cleanObject` removes, along the same
object-only traversal. -/
theorem cleanValue_stripUndefined (v : JSVal) :
    cleanValue (stripUndefined v) = cleanValue v := by
  cases v with
  | obj es =>
      show JSVal.obj (cleanEntries (stripEntries es)) = JSVal.obj (cleanEntries es)
      rw [cleanEntries_stripEntries es]
  | undefined => rfl
  | null => rfl
  | bool b => rfl
  | num q => rfl
  | str s => rfl
  | fn => rfl
  | arr es => rfl

/-- Entry-list companion of `cleanValue_stripUndefined`. -/
theorem cleanEntries_stripEntries (es : JSEntries) :
    cleanEntries (stripEntries es) = cleanEntries es := by
  cases es with
  | nil => rfl
  | cons k v tl =>
      cases v with
      | undefined => simp [stripEntries, isUndefined, cleanEntries, isNullish,
          cleanEntries_stripEntries tl]
      | null => simp [stripEntries, isUndefined, stripUndefined, cleanEntries, isNullish,
          cleanEntries_stripEntries tl]
      | bool b => simp [stripEntries, isUndefined, stripUndefined, cleanEntries, isNullish,
          cleanValue, cleanEntries_stripEntries tl]
      | num q => simp [stripEntries, isUndefined, stripUndefined, cleanEntries, isNullish,
          cleanValue, cleanEntries_stripEntries tl]
      | str s => simp [stripEntries, isUndefined, stripUndefined, cleanEntries, isNullish,
          cleanValue, cleanEntries_stripEntries tl]
      | fn => simp [stripEntries, isUndefined, stripUndefined, cleanEntries, isNullish,
          cleanValue, cleanEntries_stripEntries tl]
      | arr es2 => simp [stripEntries, isUndefined, stripUndefined, cleanEntries, isNullish,
          cleanValue, cleanEntries_stripEntries tl]
      | obj es2 => simp [stripEntries, isUndefined, stripUndefined, cleanEntries, isNullish,
          cleanValue, cleanEntries_stripEntries tl, cleanEntries_stripEntries es2]

end

mutual

/-- Cleaned values contain no undefined-valued keys: stripping after
cleaning changes nothing. -/
theorem stripUndefined_cleanValue (v : JSVal) :
    stripUndefined (cleanValue v) = cleanValue v := by
  cases v with
  | obj es =>
      show JSVal.obj (stripEntries (cleanEntries es)) = JSVal.obj (cleanEntries es)
      rw [stripEntries_cleanEntries es]
  | undefined => rfl
  | null => rfl
  | bool b => rfl
  | num q => rfl
  | str s => rfl
  | fn => rfl
  | arr es => rfl

/-- Entry-list companion of `stripUndefined_cleanValue`. -/
theorem stripEntries_cleanEntries (es : JSEntries) :
    stripEntries (cleanEntries es) = cleanEntries es := by
  cases es with
  | nil => rfl
  | cons k v tl =>
      cases v with
      | undefined => simp [cleanEntries, isNullish, stripEntries_cleanEntries tl]
      | null => simp [cleanEntries, isNullish, stripEntries_cleanEntries tl]
      | bool b => simp [cleanEntries, isNullish, cleanValue, stripEntries, isUndefined,
          stripUndefined, stripEntries_cleanEntries tl]
      | num q => simp [cleanEntries, isNullish, cleanValue, stripEntries, isUndefined,
          stripUndefined, stripEntries_cleanEntries tl]
      | str s => simp [cleanEntries, isNullish, cleanValue, stripEntries, isUndefined,
          stripUndefined, stripEntries_cleanEntries tl]
      | fn => simp [cleanEntries, isNullish, cleanValue, stripEntries, isUndefined,
          stripUndefined, stripEntries_cleanEntries tl]
      | arr es2 => simp [cleanEntries, isNullish, cleanValue, stripEntries, isUndefined,
          stripUndefined, stripEntries_cleanEntries tl]
      | obj es2 => simp [cleanEntries, isNullish, cleanValue, stripEntries, isUndefined,
          stripUndefined, stripEntries_cleanEntries tl, stripEntries_cleanEntries es2]

end

/-- C7.  Canonicalization before hashing: `cleanObject` strips every key
bound to `undefined` recursively through nested objects (a cleaned
argument object is a fixed point of undefined-stripping), so two argument
objects that differ only in optional fields being omitted versus
present-but-undefined — i.e. with equal `stripUndefined` images — receive the
identical identity from `generateImageID` after the pipeline's cleaning
step, for every digest function, every resolved source path and every such
pair of argument objects. -/
theorem cleanObject_canonicalizes_ids (hash : String → String) (url : String)
    (o₁ o₂ : JSVal) (h : stripUndefined o₁ = stripUndefined o₂) :
    stripUndefined (cleanValue o₁) = cleanValue o₁ ∧
    generateImageID hash url (cleanValue o₁) = generateImageID hash url (cleanValue o₂) := by
  refine ⟨stripUndefined_cleanValue o₁, ?_⟩
  have : cleanValue o₁ = cleanValue o₂ := by
    rw [← cleanValue_stripUndefined o₁, ← cleanValue_stripUndefined o₂, h]
  rw [this]

/-- Witness for C7 at a concrete pair: an args object carrying
`resizeOptions: undefined` and `options: undefined` hashes identically to
the one omitting both fields. -/
theorem cleanObject_canonicalizes_ids_witness :
    stripUndefined argsWithUndefined = stripUndefined argsWithout ∧
    (stripUndefined (cleanValue argsWithUndefined) = cleanValue argsWithUndefined ∧
      generateImageID (fun s => s) "/p/img.png" (cleanValue argsWithUndefined) =
        generateImageID (fun s => s) "/p/img.png" (cleanValue argsWithout)) :=
  ⟨by decide,
   cleanObject_canonicalizes_ids (fun s => s) "/p/img.png" argsWithUndefined argsWithout (by decide)⟩

/-- C2 (refuting evaluation).  `generateImageID` does prefix the identity
with the first 8 hex characters of the digest of the path concatenated
with the serialized args, but for a non-`original` format it interpolates
the whole `args.format` object — `{type, options}` — into the template
literal, so the suffix is the literal `".[object Object]"` for every such
format, never `"." ++ formatKey` (e.g. `".webp"`) as the claim states. -/
theorem generateImageID_object_suffix :
    (∀ (hash : String → String) (url : String),
      generateImageID hash url webpArgs =
        some ((hash (url ++ serialize webpArgs)).take 8 ++ ".[object Object]")) ∧
    generateImageID (fun _ => "0123456789abcdef") "/p/img.png" webpArgs =
      some "01234567.[object Object]" ∧
    "01234567.[object Object]" ≠ "01234567.webp" := by
  refine ⟨fun hash url => rfl, by decide, by decide⟩

/-- C3 (refuting evaluation).  With densities `[1, 2]` and `baseWidth`
100, the variant specs resize to widths 25 and 50 — the stored
`args.density` is already `density / highestDensity`, and `generate`
divides by `highestDensity` a second time, so the effective scale is
`d / max²` and the largest requested density maps to `baseWidth / max`,
not to the literal base width (the claim expects widths 50 and 100).
Without base dimensions the intrinsic width 1000 is scaled by the
normalized `d / max`, giving 500 and 1000, not by the raw density values
(the claim expects 1000 and 2000). -/
theorem densityPreset_scale_double_division :
    ((densityPreset c3Props).image.specs.map
      (fun s => resizeWidths (runSelf s c3Img))) = [[some 25], [some 50]] ∧
    ((densityPreset c3PropsNoBase).image.specs.map
      (fun s => resizeWidths (runSelf s c3Img))) = [[some 500], [some 1000]] := by
  constructor <;>
    (simp [densityPreset, c3Props, c3PropsNoBase, sortAsc, List.insertionSort,
      List.orderedInsert, runSelf, resizeWidths, Img.resize, Img.toFormat,
      truthyQ, x, c3Img, formatKeyOf, formatValueOf]
     norm_num)

/-- C9.  Format inference and aliasing: an image whose metadata reports
`heif` is reported as `avif`; every other allowed format is returned
unchanged; an absent format or one outside the fixed allowed set raises
the format-inference error instead of returning a value. -/
theorem formatFor_alias_and_errors :
    formatFor (some "heif") = .ok "avif" ∧
    (∀ f, f ∈ allowedFormats → f ≠ "heif" → formatFor (some f) = .ok f) ∧
    formatFor none = .error "Could not infer image format" ∧
    (∀ f, ¬ f ∈ allowedFormats →
      formatFor (some f) = .error "Could not infer image format") := by
  refine ⟨rfl, ?_, rfl, ?_⟩
  · intro f hf hne
    simp only [allowedFormats, List.mem_cons, List.not_mem_nil, or_false] at hf
    rcases hf with rfl | rfl | rfl | rfl | rfl | rfl | rfl | rfl | rfl <;>
      first
      | rfl
      | exact absurd rfl hne
  · intro f hf
    have hc : f = "" ∨ ¬ (allowedFormats.contains f) := Or.inr (by simpa using hf)
    have hred : formatFor (some f) =
        if f = "" ∨ ¬ (allowedFormats.contains f) then
          Except.error "Could not infer image format"
        else if f = "heif" then Except.ok "avif" else Except.ok f := rfl
    rw [hred, if_pos hc]

/-- Witness for C9: `png` (allowed, not `heif`) maps to itself and `bmp`
(outside the allowed set) raises the format-inference error. -/
theorem formatFor_alias_and_errors_witness :
    ("png" ∈ allowedFormats ∧ ¬ "png" = "heif" ∧ formatFor (some "png") = .ok "png") ∧
    (¬ "bmp" ∈ allowedFormats ∧
      formatFor (some "bmp") = .error "Could not infer image format") :=
  ⟨⟨by decide, by decide, formatFor_alias_and_errors.2.1 "png" (by decide) (by decide)⟩,
   ⟨by decide, formatFor_alias_and_errors.2.2.2 "bmp" (by decide)⟩⟩

/-- C10.  `getImage` never yields a missing-image sentinel: a missing or
empty id and an id never registered by a generation request both throw,
and a successful result only ever comes from an entry already present in
the per-session request cache. -/
theorem getImage_rejects_missing :
    (∀ (β : Type) (cache : List (String × β)),
      getImage cache none = .error "No id provided" ∧
      getImage cache (some "") = .error "No id provided") ∧
    (∀ (β : Type) (cache : List (String × β)) (s : String),
      ¬ s = "" → lookupId s cache = none →
      getImage cache (some s) = .error (s ++ " not found in cache")) ∧
    (∀ (β : Type) (cache : List (String × β)) (s : String) (t : β),
      getImage cache (some s) = .ok t → lookupId s cache = some t) := by
  refine ⟨fun β cache => ⟨rfl, rfl⟩, ?_, ?_⟩
  · intro β cache s hs hl
    simp [getImage, hs, hl]
  · intro β cache s t h
    by_cases hs : s = ""
    · subst hs
      simp [getImage] at h
    · cases hl : lookupId s cache with
      | none => simp [getImage, hs, hl] at h
      | some u =>
          simp [getImage, hs, hl] at h
          rw [h]

/-- Witness for C10 on the cache `[("a", 1)]`: a missing id, the empty
id and the unregistered id `"zz"` all throw, and the registered id `"a"`
resolves with its cached entry. -/
theorem getImage_rejects_missing_witness :
    (getImage [("a", 1)] none = .error "No id provided" ∧
      getImage [("a", 1)] (some "") = .error "No id provided") ∧
    getImage [("a", 1)] (some "zz") = .error "zz not found in cache" ∧
    lookupId "a" [("a", 1)] = some 1 :=
  ⟨getImage_rejects_missing.1 ℕ [("a", 1)],
   getImage_rejects_missing.2.1 ℕ [("a", 1)] "zz" (by decide) rfl,
   getImage_rejects_missing.2.2 ℕ [("a", 1)] "a" 1 rfl⟩

/-- C4.  Durable-cache idempotence of `writeImageFile`: when the cache
file already exists the producer is skipped, the state is untouched and
the existing bytes are returned; when it does not exist the produced
bytes are written first and read back; and two successive calls for the
same filename with an unchanged transform result invoke the producer at
most once in total and return byte-identical content. -/
theorem writeImageFile_durable_cache (fs : FSState)
    (cacheDir assetsDir filename : String) (bytes existing : List ℕ) :
    (lookupId (joinPath cacheDir filename) fs.files = some existing →
      (writeImageFile fs cacheDir assetsDir filename bytes).2.2 = false ∧
      (writeImageFile fs cacheDir assetsDir filename bytes).2.1.source = existing ∧
      (writeImageFile fs cacheDir assetsDir filename bytes).1 = fs) ∧
    (lookupId (joinPath cacheDir filename) fs.files = none →
      (writeImageFile fs cacheDir assetsDir filename bytes).2.2 = true ∧
      lookupId (joinPath cacheDir filename)
        (writeImageFile fs cacheDir assetsDir filename bytes).1.files = some bytes ∧
      (writeImageFile fs cacheDir assetsDir filename bytes).2.1.source = bytes) ∧
    ((writeImageFile (writeImageFile fs cacheDir assetsDir filename bytes).1
        cacheDir assetsDir filename bytes).2.2 = false ∧
      (writeImageFile (writeImageFile fs cacheDir assetsDir filename bytes).1
        cacheDir assetsDir filename bytes).2.1.source =
        (writeImageFile fs cacheDir assetsDir filename bytes).2.1.source ∧
      ((cond (writeImageFile fs cacheDir assetsDir filename bytes).2.2 1 0 : ℕ) +
        cond (writeImageFile (writeImageFile fs cacheDir assetsDir filename bytes).1
          cacheDir assetsDir filename bytes).2.2 1 0) ≤ 1) := by
  refine ⟨?_, ?_, ?_⟩
  · intro h
    simp [writeImageFile, existsFile, h]
  · intro h
    simp [writeImageFile, existsFile, h, lookupId]
  · cases h : lookupId (joinPath cacheDir filename) fs.files with
    | some existing0 =>
        simp [writeImageFile, existsFile, h]
    | none =>
        simp [writeImageFile, existsFile, h, lookupId]

/-- Witness for C4 on a concrete store: with `cache/a.png` already
holding bytes `[7]`, the producer is skipped and `[7]` returned; on an
empty store the produced bytes `[9]` are written and returned. -/
theorem writeImageFile_durable_cache_witness :
    (lookupId "cache/a.png" (FSState.mk [("cache/a.png", [7])]).files = some [7] ∧
      (writeImageFile (FSState.mk [("cache/a.png", [7])])
        "cache" "assets" "a.png" [9]).2.2 = false ∧
      (writeImageFile (FSState.mk [("cache/a.png", [7])])
        "cache" "assets" "a.png" [9]).2.1.source = [7] ∧
      (writeImageFile (FSState.mk [("cache/a.png", [7])])
        "cache" "assets" "a.png" [9]).1 = FSState.mk [("cache/a.png", [7])]) ∧
    (lookupId "cache/a.png" (FSState.mk []).files = none ∧
      (writeImageFile (FSState.mk []) "cache" "assets" "a.png" [9]).2.2 = true ∧
      lookupId "cache/a.png"
        (writeImageFile (FSState.mk []) "cache" "assets" "a.png" [9]).1.files = some [9] ∧
      (writeImageFile (FSState.mk []) "cache" "assets" "a.png" [9]).2.1.source = [9]) :=
  ⟨⟨by decide,
    (writeImageFile_durable_cache (FSState.mk [("cache/a.png", [7])])
      "cache" "assets" "a.png" [9] [7]).1 (by decide)⟩,
   ⟨by decide,
    (writeImageFile_durable_cache (FSState.mk [])
      "cache" "assets" "a.png" [9] [7]).2.1 (by decide)⟩⟩

/-- C5.  Purge correctness: with purging enabled (the default
configuration), `purgeCache` deletes exactly the files of the
cache-directory listing whose names are not among the emitted asset
names — membership in the deleted list is equivalent to membership in the
set difference — and on the spec's example (cache `{A, B, C}`, referenced
`{A, C}`) it deletes exactly `{B}`. -/
theorem purgeCache_deletes_set_difference
    (assets : List OutputAsset) (cachedFiles : List String) (f : String) :
    (f ∈ purgeCache true assets cachedFiles ↔
      (f ∈ cachedFiles ∧ ¬ f ∈ assets.map (fun a => a.name))) ∧
    purgeCache true [assetA, assetC] ["A", "B", "C"] = ["B"] := by
  constructor
  · simp [purgeCache, List.mem_filter]
  · decide

/-- Helper: the last entry of a mapped list is the image of the last
entry. -/
theorem getLast?_map {α β : Type} (f : α → β) (l : List α) :
    (l.map f).getLast? = (l.getLast?).map f := by
  induction l with
  | nil => rfl
  | cons a tl ih =>
      cases tl with
      | nil => rfl
      | cons b tl2 => simpa using ih

/-- Helper: on a preset with at least one spec and a non-empty URL for the
last spec, `generateImage` succeeds, its `src` is built from the last
spec's URL, and its `srcset`/`imageSet` joins all spec entries in spec
order. -/
theorem generateImage_ok {α : Type} (preset : PresetConfig α) (filename : String)
    (urlFor : PresetSpec α → String) (measure : PresetSpec α → ℤ × ℤ)
    (lastSpec : PresetSpec α)
    (hlast : preset.image.specs.getLast? = some lastSpec)
    (hurl : ¬ urlFor lastSpec = "") :
    ∃ attr, generateImage preset filename urlFor measure = Except.ok attr ∧
      attrSrc attr = (if preset.isBackgroundImage then "url(" ++ urlFor lastSpec ++ ")"
        else urlFor lastSpec) ∧
      attrSrcList attr = (if preset.isBackgroundImage then
          String.intercalate ", " (preset.image.specs.map
            (fun s => "url(" ++ joinPair (urlFor s) s.condition ++ ")"))
        else
          String.intercalate ", " (preset.image.specs.map
            (fun s => joinPair (urlFor s) s.condition))) := by
  simp only [generateImage, getLast?_map, hlast, Option.map_some']
  rw [if_neg hurl]
  cases hbg : preset.isBackgroundImage with
  | true =>
      refine ⟨_, rfl, ?_, ?_⟩ <;>
        (simp only [attrSrc, attrSrcList, List.map_map, if_true]; try rfl)
  | false =>
      cases hinf : preset.inferDimensions with
      | true =>
          refine ⟨_, rfl, ?_, ?_⟩ <;>
            (simp only [attrSrc, attrSrcList, List.map_map, Bool.false_eq_true,
              if_false, if_true]; try rfl)
      | false =>
          refine ⟨_, rfl, ?_, ?_⟩ <;>
            (simp only [attrSrc, attrSrcList, List.map_map, Bool.false_eq_true,
              if_false, if_true]; try rfl)

/-- Helper: an empty URL for the last spec fails `generateImage` with the
does-not-exist error. -/
theorem generateImage_error_empty_url {α : Type} (preset : PresetConfig α)
    (filename : String) (urlFor : PresetSpec α → String)
    (measure : PresetSpec α → ℤ × ℤ) (lastSpec : PresetSpec α)
    (hlast : preset.image.specs.getLast? = some lastSpec)
    (hurl : urlFor lastSpec = "") :
    generateImage preset filename urlFor measure =
      Except.error (missingImageMsg filename) := by
  simp only [generateImage, getLast?_map, hlast, Option.map_some']
  rw [if_pos hurl]

/-- Helper: an empty spec list fails `generateImage` with the
does-not-exist error. -/
theorem generateImage_error_nil {α : Type} (preset : PresetConfig α)
    (filename : String) (urlFor : PresetSpec α → String)
    (measure : PresetSpec α → ℤ × ℤ)
    (hnil : preset.image.specs = []) :
    generateImage preset filename urlFor measure =
      Except.error (missingImageMsg filename) := by
  simp only [generateImage, hnil, List.map_nil, List.getLast?_nil]

/-- C6.  Source-set ordering and canonical `src` for density presets: the
expanded spec conditions are the ascending sort of the density list
rendered as `"{density}x"` (so input `[1, 3, 2]` yields `1x, 2x, 3x`);
whenever the last spec's URL is non-empty, `generateImage` succeeds with
that URL as the descriptor's `src` (wrapped in `url(...)` for background
presets) and with a `srcset`/`imageSet` joining all entries verbatim in
spec order; and an empty or missing last entry fails `generateImage` with
the does-not-exist error. -/
theorem densityPreset_sourceset_order (props : DensityProps) (filename : String)
    (urlFor : PresetSpec DensityArgs → String)
    (measure : PresetSpec DensityArgs → ℤ × ℤ) :
    ((densityPreset props).image.specs.map (fun s => s.condition) =
        (sortAsc props.density).map (fun d => jsNumToString d ++ "x") ∧
      List.Sorted (fun a b => a ≤ b) (sortAsc props.density)) ∧
    (∀ lastSpec, (densityPreset props).image.specs.getLast? = some lastSpec →
      ¬ urlFor lastSpec = "" →
      ∃ attr, generateImage (densityPreset props) filename urlFor measure =
          Except.ok attr ∧
        attrSrc attr = (if props.isBackgroundImage then
            "url(" ++ urlFor lastSpec ++ ")"
          else urlFor lastSpec) ∧
        attrSrcList attr = (if props.isBackgroundImage then
            String.intercalate ", " ((densityPreset props).image.specs.map
              (fun s => "url(" ++ joinPair (urlFor s) s.condition ++ ")"))
          else
            String.intercalate ", " ((densityPreset props).image.specs.map
              (fun s => joinPair (urlFor s) s.condition)))) ∧
    (∀ lastSpec, (densityPreset props).image.specs.getLast? = some lastSpec →
      urlFor lastSpec = "" →
      generateImage (densityPreset props) filename urlFor measure =
        Except.error (missingImageMsg filename)) ∧
    ((densityPreset props).image.specs = [] →
      generateImage (densityPreset props) filename urlFor measure =
        Except.error (missingImageMsg filename)) := by
  refine ⟨⟨?_, ?_⟩, ?_, ?_, ?_⟩
  · simp only [densityPreset, List.map_map]
    rfl
  · exact List.sorted_insertionSort (fun a b => a ≤ b) props.density
  · intro lastSpec hlast hurl
    have h := generateImage_ok (densityPreset props) filename urlFor measure
      lastSpec hlast hurl
    simpa [densityPreset] using h
  · intro lastSpec hlast hurl
    exact generateImage_error_empty_url (densityPreset props) filename urlFor
      measure lastSpec hlast hurl
  · intro hnil
    exact generateImage_error_nil (densityPreset props) filename urlFor
      measure hnil

/-- Witness for C6 at densities `[1, 3, 2]`: conditions come out as
`1x, 2x, 3x`, the descriptor's `src` is the `3x` URL, the `srcset` lists
all three entries ascending, and an all-empty URL resolver fails with the
does-not-exist error. -/
theorem densityPreset_sourceset_order_witness :
    ((densityPreset w6props).image.specs.map (fun s => s.condition) =
      ["1x", "2x", "3x"]) ∧
    (∃ attr, generateImage (densityPreset w6props) "photo.png" w6url
        (fun _ => (0, 0)) = Except.ok attr ∧
      attrSrc attr = "u-3x" ∧
      attrSrcList attr = "u-1x 1x, u-2x 2x, u-3x 3x") ∧
    generateImage (densityPreset w6props) "photo.png" (fun _ => "")
      (fun _ => (0, 0)) = Except.error (missingImageMsg "photo.png") := by
  have hne : (densityPreset w6props).image.specs ≠ [] := by
    simp [densityPreset, w6props, sortAsc, List.insertionSort, List.orderedInsert]
  have hlast := List.getLast?_eq_getLast_of_ne_nil hne
  refine ⟨?_, ?_, ?_⟩
  · exact ((densityPreset_sourceset_order w6props "photo.png" w6url
      (fun _ => (0, 0))).1.1).trans (by rfl)
  · obtain ⟨attr, hok, hsrc, hlist⟩ :=
      (densityPreset_sourceset_order w6props "photo.png" w6url
        (fun _ => (0, 0))).2.1
        ((densityPreset w6props).image.specs.getLast hne) hlast
        (by rw [show w6url ((densityPreset w6props).image.specs.getLast hne) =
              "u-3x" from rfl]
            decide)
    refine ⟨attr, hok, ?_, ?_⟩
    · rw [hsrc]; rfl
    · rw [hlist]; rfl
  · exact (densityPreset_sourceset_order w6props "photo.png" (fun _ => "")
      (fun _ => (0, 0))).2.2.1
      ((densityPreset w6props).image.specs.getLast hne) hlast rfl

/-- Helper: unfolding lemma for `lookupId` on a cons cell. -/
theorem lookupId_cons {β : Type} (k : String) (v : β) (tl : List (String × β))
    (id : String) :
    lookupId id ((k, v) :: tl) = if k = id then some v else lookupId id tl := rfl

/-- Helper: an entry of the single-flight cache is never replaced or
removed by a later `getImageSrc` call. -/
theorem getImageSrc_preserves (hash resolvePath : String → String)
    (oracle : ℕ → Outcome) (s : SFState) (c : Call) (id : String) (t : TaskRef)
    (h : lookupId id s.requestedImagesById = some t) :
    lookupId id (getImageSrc hash resolvePath oracle s c).1.requestedImagesById =
      some t := by
  unfold getImageSrc
  cases hgen : generateImageID hash (resolvePath c.filename) c.args with
  | none => exact h
  | some idc =>
      dsimp only
      cases hl : lookupId idc s.requestedImagesById with
      | some t2 => exact h
      | none =>
          have hne : ¬ idc = id := by
            intro he
            rw [he, h] at hl
            cases hl
          dsimp only
          rw [lookupId_cons, if_neg hne]
          exact h

/-- Helper: when the identity is defined, `getImageSrc` returns a task
that is cached under that identity in the resulting state. -/
theorem getImageSrc_result (hash resolvePath : String → String)
    (oracle : ℕ → Outcome) (s : SFState) (c : Call) (id : String)
    (hgen : generateImageID hash (resolvePath c.filename) c.args = some id) :
    ∃ t, (getImageSrc hash resolvePath oracle s c).2 = some t ∧
      lookupId id (getImageSrc hash resolvePath oracle s c).1.requestedImagesById =
        some t := by
  unfold getImageSrc
  rw [hgen]
  dsimp only
  cases hl : lookupId id s.requestedImagesById with
  | some t => exact ⟨t, rfl, hl⟩
  | none =>
      dsimp only
      refine ⟨(s.nextTask, oracle s.nextTask), rfl, ?_⟩
      rw [lookupId_cons, if_pos rfl]

/-- Helper: cache entries survive any further sequence of calls. -/
theorem runCalls_preserves (hash resolvePath : String → String)
    (oracle : ℕ → Outcome) (cs : List Call) (s : SFState) (id : String)
    (t : TaskRef) (h : lookupId id s.requestedImagesById = some t) :
    lookupId id (runCalls hash resolvePath oracle s cs).1.requestedImagesById =
      some t := by
  induction cs generalizing s with
  | nil => exact h
  | cons c cs ih =>
      exact ih (getImageSrc hash resolvePath oracle s c).1
        (getImageSrc_preserves hash resolvePath oracle s c id t h)

/-- Helper: the `i`-th call's task is cached under the `i`-th call's
identity in the final state of the run. -/
theorem runCalls_get (hash resolvePath : String → String) (oracle : ℕ → Outcome)
    (cs : List Call) :
    ∀ (s : SFState) (i : ℕ) (hi : i < cs.length) (id : String),
      generateImageID hash (resolvePath (cs.get ⟨i, hi⟩).filename)
        (cs.get ⟨i, hi⟩).args = some id →
      ∃ t, (runCalls hash resolvePath oracle s cs).2.get? i = some (some t) ∧
        lookupId id (runCalls hash resolvePath oracle s cs).1.requestedImagesById =
          some t := by
  induction cs with
  | nil =>
      intro s i hi
      exact absurd hi (Nat.not_lt_zero i)
  | cons c cs ih =>
      intro s i hi id hgen
      cases i with
      | zero =>
          obtain ⟨t, hres, hstate⟩ :=
            getImageSrc_result hash resolvePath oracle s c id hgen
          refine ⟨t, ?_, ?_⟩
          · show some (getImageSrc hash resolvePath oracle s c).2 = some (some t)
            rw [hres]
          · exact runCalls_preserves hash resolvePath oracle cs
              (getImageSrc hash resolvePath oracle s c).1 id t hstate
      | succ j =>
          exact ih (getImageSrc hash resolvePath oracle s c).1 j
            (Nat.lt_of_succ_lt_succ hi) id hgen

/-- Helper: `getImageSrc` preserves the session invariant. -/
theorem getImageSrc_inv (hash resolvePath : String → String)
    (oracle : ℕ → Outcome) (s : SFState) (c : Call) (h : SessionInv s) :
    SessionInv (getImageSrc hash resolvePath oracle s c).1 := by
  obtain ⟨hnd, hiff⟩ := h
  unfold getImageSrc
  cases hgen : generateImageID hash (resolvePath c.filename) c.args with
  | none => exact ⟨hnd, hiff⟩
  | some idc =>
      dsimp only
      cases hl : lookupId idc s.requestedImagesById with
      | some t => exact ⟨hnd, hiff⟩
      | none =>
          dsimp only
          have hnotin : idc ∉ s.invocations := by
            intro hin
            have := (hiff idc).1 hin
            rw [hl] at this
            cases this
          constructor
          · simpa [List.nodup_append, hnd] using hnotin
          · intro id2
            by_cases he : idc = id2
            · subst he
              simp [lookupId_cons]
            · rw [lookupId_cons, if_neg he]
              simpa [List.mem_append, he, Ne.symm he] using hiff id2

/-- Helper: a whole run preserves the session invariant. -/
theorem runCalls_inv (hash resolvePath : String → String)
    (oracle : ℕ → Outcome) (cs : List Call) (s : SFState) (h : SessionInv s) :
    SessionInv (runCalls hash resolvePath oracle s cs).1 := by
  induction cs generalizing s with
  | nil => exact h
  | cons c cs ih =>
      exact ih (getImageSrc hash resolvePath oracle s c).1
        (getImageSrc_inv hash resolvePath oracle s c h)

/-- C1.  Single-flight generation: over any sequence of `getImageSrc`
calls in one session, the generator is invoked at most once per computed
identity (the invocation log carries no duplicate identity), and any two
calls with the same resolved source path and identical args receive the
very same task — the same task index and the same settled outcome, so a
cached failure is observed unchanged by every later call and the
generator is never re-invoked after it. -/
theorem getImageSrc_single_flight (hash resolvePath : String → String)
    (oracle : ℕ → Outcome) (cs : List Call) :
    (runCalls hash resolvePath oracle initialSFState cs).1.invocations.Nodup ∧
    (∀ (i j : ℕ) (hi : i < cs.length) (hj : j < cs.length),
      resolvePath (cs.get ⟨i, hi⟩).filename =
        resolvePath (cs.get ⟨j, hj⟩).filename →
      (cs.get ⟨i, hi⟩).args = (cs.get ⟨j, hj⟩).args →
      ∀ id, generateImageID hash (resolvePath (cs.get ⟨i, hi⟩).filename)
          (cs.get ⟨i, hi⟩).args = some id →
      (runCalls hash resolvePath oracle initialSFState cs).2.get? i =
        (runCalls hash resolvePath oracle initialSFState cs).2.get? j) := by
  constructor
  · exact (runCalls_inv hash resolvePath oracle cs initialSFState
      ⟨List.nodup_nil, by intro id; simp [initialSFState, lookupId]⟩).1
  · intro i j hi hj hpath hargs id hgen
    obtain ⟨t1, hr1, hs1⟩ :=
      runCalls_get hash resolvePath oracle cs initialSFState i hi id hgen
    have hgenj : generateImageID hash (resolvePath (cs.get ⟨j, hj⟩).filename)
        (cs.get ⟨j, hj⟩).args = some id := by
      rw [← hpath, ← hargs]
      exact hgen
    obtain ⟨t2, hr2, hs2⟩ :=
      runCalls_get hash resolvePath oracle cs initialSFState j hj id hgenj
    have ht : t1 = t2 := by
      have := hs1.symm.trans hs2
      exact Option.some_injective _ this
    rw [hr1, hr2, ht]

/-- Witness for C1: two identical calls in one session with a generator
that fails — the invocation log is duplicate-free and both calls observe
the same cached task (hence the same cached failure); concretely the
session performs exactly one invocation. -/
theorem getImageSrc_single_flight_witness :
    (runCalls (fun s => s) (fun s => s) (fun _ => Outcome.failed "boom")
      initialSFState [w1call, w1call]).1.invocations.Nodup ∧
    (runCalls (fun s => s) (fun s => s) (fun _ => Outcome.failed "boom")
        initialSFState [w1call, w1call]).2.get? 0 =
      (runCalls (fun s => s) (fun s => s) (fun _ => Outcome.failed "boom")
        initialSFState [w1call, w1call]).2.get? 1 ∧
    (runCalls (fun s => s) (fun s => s) (fun _ => Outcome.failed "boom")
        initialSFState [w1call, w1call]).1.nextTask = 1 :=
  ⟨(getImageSrc_single_flight (fun s => s) (fun s => s)
      (fun _ => Outcome.failed "boom") [w1call, w1call]).1,
   (getImageSrc_single_flight (fun s => s) (fun s => s)
      (fun _ => Outcome.failed "boom") [w1call, w1call]).2 0 1
      (by decide) (by decide) rfl rfl
      (("img.png" ++ serialize w1args).take 8) (by rfl),
   by rfl⟩

/-- C8 (counterexample).  A density preset whose list sorts to the empty
sequence raises no error at preset-resolution time — `densityPreset`
returns an ordinary config whose spec list is empty — and the failure
first surfaces during a later `generateImage` request, as the
does-not-exist error. -/
theorem emptyPreset_resolves_without_error :
    (densityPreset c8props).image.specs = [] ∧
    generateImage (densityPreset c8props) "img.png"
      (fun (_ : PresetSpec DensityArgs) => "u") (fun _ => (0, 0)) =
      Except.error (missingImageMsg "img.png") :=
  ⟨rfl, generateImage_error_nil (densityPreset c8props) "img.png"
    (fun _ => "u") (fun _ => (0, 0)) rfl⟩

/-- C8 (amended).  Configuration errors are not surfaced at
preset-resolution time: a width/density list that sorts to the empty
sequence yields a preset with an empty spec list and no error, and the
error first appears when `generateImage` is requested (as the
does-not-exist failure); likewise no runtime check constrains the format
key — any key outside the allowed set is accepted at resolution and
simply mapped to `image/{key}` (the fixed format set is enforced only by
static typing). -/
theorem preset_config_errors_surface_at_request
    (dprops : DensityProps) (wprops : WidthProps) (filename : String)
    (urlForD : PresetSpec DensityArgs → String)
    (measureD : PresetSpec DensityArgs → ℤ × ℤ)
    (urlForW : PresetSpec WidthArgs → String)
    (measureW : PresetSpec WidthArgs → ℤ × ℤ) :
    (dprops.density = [] →
      (densityPreset dprops).image.specs = [] ∧
      generateImage (densityPreset dprops) filename urlForD measureD =
        Except.error (missingImageMsg filename)) ∧
    (wprops.widths = WidthsProp.list [] →
      (widthPreset wprops).image.specs = [] ∧
      generateImage (widthPreset wprops) filename urlForW measureW =
        Except.error (missingImageMsg filename)) ∧
    (∀ (key : String) (v : JSVal), ¬ key = "original" → ¬ key = "jpg" →
      (densityPreset { dprops with format := FormatProp.single key v }).image.type =
        some ("image/" ++ key)) := by
  refine ⟨?_, ?_, ?_⟩
  · intro h
    have hnil : (densityPreset dprops).image.specs = [] := by
      simp [densityPreset, h, sortAsc]
    exact ⟨hnil, generateImage_error_nil _ filename urlForD measureD hnil⟩
  · intro h
    have hnil : (widthPreset wprops).image.specs = [] := by
      simp [widthPreset, h, sortAsc]
    exact ⟨hnil, generateImage_error_nil _ filename urlForW measureW hnil⟩
  · intro key v hk1 hk2
    simp [densityPreset, mimeTypeFor, formatKeyOf, hk1, hk2]

/-- Witness for C8 (amended) at concrete empty presets and the
out-of-set format key `bmp`. -/
theorem preset_config_errors_surface_at_request_witness :
    ((densityPreset c8props).image.specs = [] ∧
      generateImage (densityPreset c8props) "photo.png"
        (fun _ => "u") (fun _ => (0, 0)) =
        Except.error (missingImageMsg "photo.png")) ∧
    ((widthPreset w8props).image.specs = [] ∧
      generateImage (widthPreset w8props) "photo.png"
        (fun _ => "u") (fun _ => (0, 0)) =
        Except.error (missingImageMsg "photo.png")) ∧
    (densityPreset { c8props with format := FormatProp.single "bmp" (.obj .nil) }).image.type =
      some "image/bmp" :=
  ⟨(preset_config_errors_surface_at_request c8props w8props "photo.png"
      (fun _ => "u") (fun _ => (0, 0)) (fun _ => "u") (fun _ => (0, 0))).1 rfl,
   (preset_config_errors_surface_at_request c8props w8props "photo.png"
      (fun _ => "u") (fun _ => (0, 0)) (fun _ => "u") (fun _ => (0, 0))).2.1 rfl,
   (preset_config_errors_surface_at_request c8props w8props "photo.png"
      (fun _ => "u") (fun _ => (0, 0)) (fun _ => "u") (fun _ => (0, 0))).2.2
      "bmp" (.obj .nil) (by decide) (by decide)⟩
